import Mathlib

/-
Verification of the plot-job orchestrator in chia/plotting/create_plot.py
(with its CLI caller chia/plotter/plotter.py).

The external collaborators (blspy key arithmetic, the chiapos plotting
engine, the keychain storage, bech32m decoding, the filesystem) are
modelled as an explicit environment `Env`; the orchestrator itself is a
direct translation of `create_plot` and its helpers, producing an
outcome (success or the raised error), an event trace (log warnings,
mkdir calls, engine invocations) and the final set of filesystem paths.
-/

namespace ChiaPlot

/-- Private keys, public keys, 32-byte values and memo blobs are opaque
values produced by the external bls library; we code them as naturals. -/
abbrev PrivKey := Nat

abbrev PubKey := Nat

abbrev Bytes32 := Nat

abbrev Memo := Nat

abbrev FPath := String

/-- The errors `create_plot` can raise.  `noKeyAvailable f` models the
RuntimeError of get_farmer_public_key / get_pool_public_key (lines 31, 43;
the string records which flag the message tells the user to supply);
`conflictingPoolSelection` the RuntimeError of line 64;
`nameError` the NameError raised on line 113, where the source references
the undefined variables `num` and `i`; `plottingEngineFailure` an
exception escaping a chiapos engine call; `assertionError` a failing
blanket assert (lines 74, 88, 126). -/
inductive PlotError where
  | noKeyAvailable (flag : String)
  | conflictingPoolSelection
  | nameError
  | plottingEngineFailure
  | assertionError
  deriving DecidableEq

/-- The three external plotting-engine entry points, with the argument
lists passed at lines 150-163, 166-179 and 182-192 of create_plot.py. -/
inductive EngineCall where
  | createPlotDisk (tmpDir tmp2Dir finalDir : FPath) (filename : String)
      (size : Nat) (memo : Memo) (plotId : Bytes32)
      (buffer buckets stripeSize numThreads : Nat) (nobitfield : Bool)
  | createPlotDiskPhase1 (tmpDir tmp2Dir finalDir : FPath) (filename : String)
      (size : Nat) (memo : Memo) (plotId : Bytes32)
      (buffer buckets stripeSize numThreads : Nat) (nobitfield : Bool)
  | createPlotDiskPhase234 (tmpDir tmp2Dir finalDir : FPath) (filename : String)
      (size : Nat) (buffer buckets stripeSize : Nat) (nobitfield : Bool)
  deriving DecidableEq

/-- Observable events of a run of `create_plot`, in program order:
log.warning calls (lines 77, 79), key/identity derivations (lines 32, 44,
119-128), directory creations (lines 96, 101, 107), the engine dispatch
(lines 150-192), and the log.info markers of the dispatch and cleanup
sections (lines 145, 194, 196, 202, 208, 210, 211). -/
inductive Event where
  | warnMainnetSize (size : Nat)
  | warnKFloor
  | farmerKeyDerive
  | poolKeyDerive
  | identityDerive
  | mkdirCall (p : FPath)
  | infoStartingPlot
  | engine (c : EngineCall)
  | infoAlreadyExists (filename : String)
  | infoSummary
  | warnTmpNotRemoved (p : FPath)
  | warnTmp2NotRemoved (p : FPath)
  | infoCreatedTotal
  | infoFilename (filename : String)
  deriving DecidableEq

/-- The environment: the external collaborators of create_plot.py.
`getPrivateKeyByFingerprint` and `getFirstPrivateKey` model the Keychain
lookups (spec section 6: get_key_by_fingerprint / get_first_key);
`masterSkToFarmerPk`, `masterSkToPoolPk`, `masterSkToLocalPk` model
master_sk_to_farmer_sk(sk).get_g1() and friends; `decodePk` models
G1Element.from_bytes(bytes.fromhex hex); `decodePuzzleHash` models
decode_puzzle_hash; `decodeHexBytes32` and `decodeHexMemo` the hex
decoding of the debug overrides; `generatePlotPublicKey`,
`calculatePlotIdPk`, `calculatePlotIdPh`, `streamPlotInfoPk`,
`streamPlotInfoPh` the identity-derivation primitives; `keyGen` the
random key AugSchemeMPL.key_gen(token_bytes(32)); `cwd` the value of
Path.cwd(); `now` the strftime timestamp of line 142; `minMainnetKSize`
the config option; `fs` the set of filesystem paths existing at job
start; `rmdirOk p` whether rmdir on p would succeed (the directory is
empty and removable); `engineOk` whether the dispatched engine call
returns rather than raises. -/
structure Env where
  getPrivateKeyByFingerprint : Nat → Option PrivKey
  getFirstPrivateKey : Option PrivKey
  masterSkToFarmerPk : PrivKey → PubKey
  masterSkToPoolPk : PrivKey → PubKey
  masterSkToLocalPk : PrivKey → PubKey
  decodePk : String → PubKey
  decodePuzzleHash : String → Bytes32
  decodeHexBytes32 : String → Bytes32
  decodeHexMemo : String → Memo
  generatePlotPublicKey : PubKey → PubKey → PubKey
  calculatePlotIdPk : PubKey → PubKey → Bytes32
  calculatePlotIdPh : Bytes32 → PubKey → Bytes32
  streamPlotInfoPk : PubKey → PubKey → PrivKey → Memo
  streamPlotInfoPh : Bytes32 → PubKey → PrivKey → Memo
  keyGen : PrivKey
  cwd : FPath
  now : String
  minMainnetKSize : Nat
  fs : List FPath
  rmdirOk : FPath → Bool
  engineOk : Bool

/-- The fields of the `args` object handed to `create_plot` (built by the
Params class of chia/plotter/plotter.py, plus the `filename` field that
create_plot.py line 104 reads). -/
structure Args where
  size : Nat
  buffer : Nat
  num_threads : Nat
  buckets : Nat
  stripe_size : Nat
  alt_fingerprint : Option Nat
  pool_contract_address : Option String
  farmer_public_key : Option String
  pool_public_key : Option String
  tmp_dir : FPath
  tmp2_dir : Option FPath
  final_dir : FPath
  filename : FPath
  plotid : Option String
  memo : Option String
  nobitfield : Bool
  phase : Int

instance {α : Type} [DecidableEq α] : DecidableEq (Except PlotError α) :=
  fun a b =>
  match a, b with
  | .error x, .error y =>
    if h : x = y then isTrue (by rw [h])
    else isFalse (by intro hh; exact h (Except.error.inj hh))
  | .ok x, .ok y =>
    if h : x = y then isTrue (by rw [h])
    else isFalse (by intro hh; exact h (Except.ok.inj hh))
  | .error _, .ok _ => isFalse (by intro hh; exact Except.noConfusion hh)
  | .ok _, .error _ => isFalse (by intro hh; exact Except.noConfusion hh)

/-- The overall result of a run of `create_plot`: the outcome (success,
or the error that propagated out), the event trace, and the filesystem
paths existing when the function returned or raised. -/
structure RunResult where
  outcome : Except PlotError Unit
  trace : List Event
  fs : List FPath
  deriving DecidableEq

/-- Existence test `Path.exists()` against the modelled filesystem. -/
def pathExists (fs : List FPath) (p : FPath) : Bool :=
  decide (p ∈ fs)

/-- Modelled from the spec: `chia.util.path.mkdir` (not under src/)
ensures the directory exists, creating it (recursively) if missing
(spec sections 4.3 and 6). -/
def mkdirFs (fs : List FPath) (p : FPath) : List FPath :=
  if p ∈ fs then fs else p :: fs

/-- Scan of the character list of a path, keeping the text after the
last slash seen so far. -/
def pathNameAux : List Char → List Char → List Char
  | [], acc => acc
  | c :: rest, acc =>
    if c = '/' then pathNameAux rest [] else pathNameAux rest (acc ++ [c])

/-- `full_path.name` of line 105: the last path component, the text after
the final slash. -/
def pathName (p : FPath) : String :=
  String.mk (pathNameAux p.data [])

/-- Keychain lookup shared by get_farmer_public_key and
get_pool_public_key (lines 26-29 and 38-41): by fingerprint when one is
given, else the first stored private key. -/
def lookupSk (env : Env) (alt_fingerprint : Option Nat) : Option PrivKey :=
  match alt_fingerprint with
  | some fp => env.getPrivateKeyByFingerprint fp
  | none => env.getFirstPrivateKey

/-- get_farmer_public_key (lines 23-32): look up a stored private key and
derive the farmer public key from it, or raise when no key is found. -/
def get_farmer_public_key (env : Env) (alt_fingerprint : Option Nat) :
    Except PlotError PubKey :=
  match lookupSk env alt_fingerprint with
  | none => .error (.noKeyAvailable "-f")
  | some sk => .ok (env.masterSkToFarmerPk sk)

/-- get_pool_public_key (lines 35-44): same lookup, pool derivation path,
and the error message names the -p flag. -/
def get_pool_public_key (env : Env) (alt_fingerprint : Option Nat) :
    Except PlotError PubKey :=
  match lookupSk env alt_fingerprint with
  | none => .error (.noKeyAvailable "-p")
  | some sk => .ok (env.masterSkToPoolPk sk)

/-- Lines 54-58: the farmer public key is the decoded explicit hex when
supplied, else derived from a stored key (emitting a derivation event). -/
def resolveFarmer (env : Env) (args : Args) :
    Except PlotError PubKey × List Event :=
  match args.farmer_public_key with
  | some hex => (.ok (env.decodePk hex), [])
  | none =>
    match get_farmer_public_key env args.alt_fingerprint with
    | .error e => (.error e, [])
    | .ok pk => (.ok pk, [.farmerKeyDerive])

/-- Lines 60-72: pool selection.  An explicit pool public key conflicts
with a pool contract address (line 64); with neither, a pool key is
derived from storage; with only a contract address, it is decoded into a
puzzle hash. -/
def resolvePool (env : Env) (args : Args) :
    Except PlotError (Option PubKey × Option Bytes32) × List Event :=
  match args.pool_public_key with
  | some hex =>
    match args.pool_contract_address with
    | some _ => (.error .conflictingPoolSelection, [])
    | none => (.ok (some (env.decodePk hex), none), [])
  | none =>
    match args.pool_contract_address with
    | none =>
      match get_pool_public_key env args.alt_fingerprint with
      | .error e => (.error e, [])
      | .ok pk => (.ok (some pk, none), [.poolKeyDerive])
    | some addr => (.ok (none, some (env.decodePuzzleHash addr)), [])

/-- The key material create_plot has resolved after line 74. -/
structure Resolved where
  farmer_public_key : PubKey
  pool_public_key : Option PubKey
  pool_contract_puzzle_hash : Option Bytes32
  deriving DecidableEq

/-- Lines 54-74: full key resolution, ending in the blanket assert of
line 74 that exactly one of the pool fields is populated. -/
def resolveKeys (env : Env) (args : Args) :
    Except PlotError Resolved × List Event :=
  match resolveFarmer env args with
  | (.error e, tr) => (.error e, tr)
  | (.ok fpk, tr1) =>
    match resolvePool env args with
    | (.error e, tr2) => (.error e, tr1 ++ tr2)
    | (.ok (ppk, pph), tr2) =>
      if ppk.isNone ≠ pph.isNone then
        (.ok ⟨fpk, ppk, pph⟩, tr1 ++ tr2)
      else
        (.error .assertionError, tr1 ++ tr2)

/-- Line 52: args.tmp2_dir defaults to args.tmp_dir when unset. -/
def defaultTmp2 (args : Args) : FPath :=
  args.tmp2_dir.getD args.tmp_dir

/-- Lines 78-80: sizes below 22 are forced up to 22. -/
def adjustedSize (size : Nat) : Nat :=
  if size < 22 then 22 else size

/-- Lines 76-80: the two size warnings.  The mainnet warning fires only
when test_private_keys is None (line 76); the k-floor warning whenever
the size is below 22 (line 78). -/
def sizeEvents (env : Env) (args : Args) (tpkIsNone : Bool) : List Event :=
  (if args.size < env.minMainnetKSize && tpkIsNone
   then [Event.warnMainnetSize args.size] else []) ++
  (if args.size < 22 then [Event.warnKFloor] else [])

/-- Line 94-97: whether this job creates the primary temp directory. -/
def tmpDirCreated (env : Env) (args : Args) : Bool :=
  ! pathExists env.fs args.tmp_dir

/-- The filesystem after lines 94-97. -/
def fsAfterTmp (env : Env) (args : Args) : List FPath :=
  if ! pathExists env.fs args.tmp_dir then mkdirFs env.fs args.tmp_dir
  else env.fs

/-- Lines 99-102: whether this job creates the secondary temp directory
(checked after the primary one was possibly created). -/
def tmp2DirCreated (env : Env) (args : Args) (tmp2_dir : FPath) : Bool :=
  ! pathExists (fsAfterTmp env args) tmp2_dir

/-- The filesystem after lines 99-102. -/
def fsAfterTmp2 (env : Env) (args : Args) (tmp2_dir : FPath) : List FPath :=
  if ! pathExists (fsAfterTmp env args) tmp2_dir
  then mkdirFs (fsAfterTmp env args) tmp2_dir
  else fsAfterTmp env args

/-- Lines 94-107: the filesystem after both temp-directory steps and the
unconditional mkdir(final_dir) of line 107, where final_dir is
full_path.cwd(), that is Path.cwd(), the process working directory. -/
def fsAfterDirs (env : Env) (args : Args) (tmp2_dir : FPath) : List FPath :=
  mkdirFs (fsAfterTmp2 env args tmp2_dir) env.cwd

/-- The mkdir events of lines 94-107, in order. -/
def dirEvents (env : Env) (args : Args) (tmp2_dir : FPath) : List Event :=
  (if tmpDirCreated env args then [Event.mkdirCall args.tmp_dir] else []) ++
  (if tmp2DirCreated env args tmp2_dir then [Event.mkdirCall tmp2_dir] else []) ++
  [Event.mkdirCall env.cwd]

/-- Lines 118-128: derive the plot public key, then the plot id and memo
in the pool-public-key variant or the pool-contract variant; the else
branch asserts that a puzzle hash is present (line 126). -/
def deriveIdentity (env : Env) (keys : Resolved) (sk : PrivKey) :
    Except PlotError (Bytes32 × Memo) :=
  let plot_public_key :=
    env.generatePlotPublicKey (env.masterSkToLocalPk sk) keys.farmer_public_key
  match keys.pool_public_key with
  | some ppk =>
    .ok (env.calculatePlotIdPk ppk plot_public_key,
         env.streamPlotInfoPk ppk keys.farmer_public_key sk)
  | none =>
    match keys.pool_contract_puzzle_hash with
    | none => .error .assertionError
    | some ph =>
      .ok (env.calculatePlotIdPh ph plot_public_key,
           env.streamPlotInfoPh ph keys.farmer_public_key sk)

/-- Lines 130-132: the debug plot-id override replaces the derived id. -/
def ovPlotId (env : Env) (args : Args) (plot_id : Bytes32) : Bytes32 :=
  match args.plotid with
  | some h => env.decodeHexBytes32 h
  | none => plot_id

/-- Lines 134-136: the debug memo override replaces the derived memo. -/
def ovMemo (env : Env) (args : Args) (plot_memo : Memo) : Memo :=
  match args.memo with
  | some h => env.decodeHexMemo h
  | none => plot_memo

/-- Lines 144-194: the existence check and the phase dispatch.  When the
full path already exists only the line-194 log.info runs.  Otherwise the
phase selector picks one engine entry point (phases 0, 1, 2) or, for any
other phase value, none at all; a dispatched call raises
plottingEngineFailure when the engine fails, after the call was made.
Phases 0 and 2 pass final_dir (the cwd, see `fsAfterDirs`); phase 1
passes str(args.final_dir) (line 169). -/
def dispatch (env : Env) (args : Args) (size : Nat)
    (tmp2_dir full_path : FPath) (filename : String) (final_dir : FPath)
    (plot_memo : Memo) (plot_id : Bytes32) (fs : List FPath) :
    Except PlotError Unit × List Event :=
  if ! pathExists fs full_path then
    if args.phase == 0 then
      let c := EngineCall.createPlotDisk args.tmp_dir tmp2_dir final_dir
        filename size plot_memo plot_id args.buffer args.buckets
        args.stripe_size args.num_threads args.nobitfield
      ((if env.engineOk then .ok () else .error .plottingEngineFailure),
       [Event.infoStartingPlot, Event.engine c])
    else if args.phase == 1 then
      let c := EngineCall.createPlotDiskPhase1 args.tmp_dir tmp2_dir
        args.final_dir filename size plot_memo plot_id args.buffer
        args.buckets args.stripe_size args.num_threads args.nobitfield
      ((if env.engineOk then .ok () else .error .plottingEngineFailure),
       [Event.infoStartingPlot, Event.engine c])
    else if args.phase == 2 then
      let c := EngineCall.createPlotDiskPhase234 args.tmp_dir tmp2_dir
        final_dir filename size args.buffer args.buckets args.stripe_size
        args.nobitfield
      ((if env.engineOk then .ok () else .error .plottingEngineFailure),
       [Event.infoStartingPlot, Event.engine c])
    else
      (.ok (), [Event.infoStartingPlot])
  else
    (.ok (), [Event.infoAlreadyExists filename])

/-- Lines 196-211: the cleanup events.  Each temp directory the job
created is attempted with rmdir; a failing rmdir is caught and logged
(lines 199-202 and 204-208), never re-raised. -/
def cleanupEvents (env : Env) (args : Args) (tmp2_dir : FPath)
    (c1 c2 : Bool) (filename : String) : List Event :=
  [Event.infoSummary] ++
  (if c1 then
     (if env.rmdirOk args.tmp_dir then []
      else [Event.warnTmpNotRemoved args.tmp_dir])
   else []) ++
  (if c2 then
     (if env.rmdirOk tmp2_dir then []
      else [Event.warnTmp2NotRemoved tmp2_dir])
   else []) ++
  [Event.infoCreatedTotal, Event.infoFilename filename]

/-- Lines 198-208: the filesystem effect of cleanup — each created temp
directory whose rmdir succeeds is removed. -/
def cleanupFs (env : Env) (args : Args) (tmp2_dir : FPath)
    (c1 c2 : Bool) (fs : List FPath) : List FPath :=
  let fs1 := if c1 && env.rmdirOk args.tmp_dir then fs.erase args.tmp_dir else fs
  if c2 && env.rmdirOk tmp2_dir then fs1.erase tmp2_dir else fs1

/-- create_plot (lines 47-211), assembled from the stages above in the
order of the source: tmp2 defaulting (52), key resolution (54-74), size
validation (76-80), directory setup (94-107), the NameError of the
test_private_keys branch (112-113), per-plot key generation and identity
derivation (112-128) with the debug overrides (130-136), the unused
timestamp of line 142, the existence check and dispatch (144-194), and —
only when dispatch did not raise — the cleanup section (196-211). -/
def create_plot (env : Env) (args : Args)
    (test_private_keys : Option (List PrivKey)) : RunResult :=
  let tmp2_dir := defaultTmp2 args
  match resolveKeys env args with
  | (.error e, tr) => ⟨.error e, tr, env.fs⟩
  | (.ok keys, tr0) =>
    let evPre := tr0 ++ sizeEvents env args test_private_keys.isNone ++
      dirEvents env args tmp2_dir
    let fs3 := fsAfterDirs env args tmp2_dir
    let filename := pathName args.filename
    match test_private_keys with
    | some _ => ⟨.error .nameError, evPre, fs3⟩
    | none =>
      match deriveIdentity env keys env.keyGen with
      | .error e => ⟨.error e, evPre ++ [Event.identityDerive], fs3⟩
      | .ok (pid, pm) =>
        let dt_string := env.now
        match dispatch env args (adjustedSize args.size) tmp2_dir
          args.filename filename env.cwd (ovMemo env args pm)
          (ovPlotId env args pid) fs3 with
        | (.error e, evD) =>
          ⟨.error e, evPre ++ [Event.identityDerive] ++ evD, fs3⟩
        | (.ok _, evD) =>
          ⟨.ok (),
           evPre ++ [Event.identityDerive] ++ evD ++
             cleanupEvents env args tmp2_dir (tmpDirCreated env args)
               (tmp2DirCreated env args tmp2_dir) filename,
           cleanupFs env args tmp2_dir (tmpDirCreated env args)
             (tmp2DirCreated env args tmp2_dir) fs3⟩

/-- Whether the trace contains any engine invocation. -/
def engineInvoked (tr : List Event) : Bool :=
  tr.any fun e => match e with
    | .engine _ => true
    | _ => false

/-- The engine invocations of a trace, in order. -/
def engineCalls (tr : List Event) : List EngineCall :=
  tr.filterMap fun e => match e with
    | .engine c => some c
    | _ => none

/-- The k-size argument of an engine call. -/
def callSize : EngineCall → Nat
  | .createPlotDisk _ _ _ _ size _ _ _ _ _ _ _ => size
  | .createPlotDiskPhase1 _ _ _ _ size _ _ _ _ _ _ _ => size
  | .createPlotDiskPhase234 _ _ _ _ size _ _ _ _ => size

/-- The final-directory argument of an engine call. -/
def callFinalDir : EngineCall → FPath
  | .createPlotDisk _ _ d _ _ _ _ _ _ _ _ _ => d
  | .createPlotDiskPhase1 _ _ d _ _ _ _ _ _ _ _ _ => d
  | .createPlotDiskPhase234 _ _ d _ _ _ _ _ _ => d

/-- The filename argument of an engine call. -/
def callFilename : EngineCall → String
  | .createPlotDisk _ _ _ f _ _ _ _ _ _ _ _ => f
  | .createPlotDiskPhase1 _ _ _ f _ _ _ _ _ _ _ _ => f
  | .createPlotDiskPhase234 _ _ _ f _ _ _ _ _ => f

/-- The plot-id argument of an engine call, when it takes one. -/
def callPlotId : EngineCall → Option Bytes32
  | .createPlotDisk _ _ _ _ _ _ pid _ _ _ _ _ => some pid
  | .createPlotDiskPhase1 _ _ _ _ _ _ pid _ _ _ _ _ => some pid
  | .createPlotDiskPhase234 _ _ _ _ _ _ _ _ _ => none

/-- A concrete environment for the witness and counterexample runs: a
keychain holding key 7 under every fingerprint and key 5 as the first
key, simple arithmetic stand-ins for the bls primitives, an empty
filesystem, and a cooperative engine. -/
def envW : Env where
  getPrivateKeyByFingerprint := fun _ => some 7
  getFirstPrivateKey := some 5
  masterSkToFarmerPk := fun sk => sk + 100
  masterSkToPoolPk := fun sk => sk + 200
  masterSkToLocalPk := fun sk => sk + 300
  decodePk := fun _ => 1
  decodePuzzleHash := fun _ => 2
  decodeHexBytes32 := fun _ => 3
  decodeHexMemo := fun _ => 4
  generatePlotPublicKey := fun a b => 1000 * a + b
  calculatePlotIdPk := fun a b => a + b
  calculatePlotIdPh := fun a b => a + b + 1
  streamPlotInfoPk := fun a b c => a + b + c
  streamPlotInfoPh := fun a b c => a + b + c + 1
  keyGen := 9
  cwd := "/cwd"
  now := "2025-01-01-00-00"
  minMainnetKSize := 32
  fs := []
  rmdirOk := fun _ => true
  engineOk := true

/-- A concrete job specification with explicit farmer and pool keys. -/
def argsW : Args where
  size := 32
  buffer := 3389
  num_threads := 2
  buckets := 128
  stripe_size := 65536
  alt_fingerprint := none
  pool_contract_address := none
  farmer_public_key := some "aabb"
  pool_public_key := some "ccdd"
  tmp_dir := "/tmp1"
  tmp2_dir := none
  final_dir := "/final"
  filename := "/plots/out.plot"
  plotid := none
  memo := none
  nobitfield := false
  phase := 0

/-- C1 fixture: the requested output file already exists on disk. -/
def envC1 : Env := { envW with fs := ["/plots/out.plot"] }

/-- C2 fixture: the engine call raises. -/
def envC2 : Env := { envW with engineOk := false }

/-- C3 fixture: same size, same debug plot id, different filename arg. -/
def argsC3a : Args := { argsW with filename := "/plots/p1.plot", plotid := some "cafe" }

/-- C3 fixture: second run, differing from `argsC3a` only in the
caller-supplied filename. -/
def argsC3b : Args := { argsW with filename := "/plots/p2.plot", plotid := some "cafe" }

/-- C4 fixture: no explicit farmer key, but both pool selections given. -/
def argsC4 : Args :=
  { argsW with
      farmer_public_key := none
      pool_public_key := some "cc"
      pool_contract_address := some "addr" }

/-- C5 fixture: neither pool selection given, pool key derived from the
stored key. -/
def argsC5 : Args := { argsW with pool_public_key := none }

/-- C5 fixture: pool contract address given. -/
def argsC5b : Args :=
  { argsW with
      pool_public_key := none
      pool_contract_address := some "addr" }

/-- C6 fixture: size below the k floor. -/
def argsC6 : Args := { argsW with size := 10 }

/-- C8 fixture: the keychain is empty. -/
def envC8 : Env := { envW with getFirstPrivateKey := none }

/-- C8 fixture: no explicit farmer public key supplied. -/
def argsC8 : Args := { argsW with farmer_public_key := none }

/-- C9 fixture: an unrecognized phase selector. -/
def argsC9 : Args := { argsW with phase := 5 }

/-- C10 fixture: a phase-1 job. -/
def argsC10 : Args := { argsW with phase := 1 }

/-! ### Helper lemmas about the filesystem model -/

theorem pathExists_true_iff {fs : List FPath} {p : FPath} :
    pathExists fs p = true ↔ p ∈ fs := by
  simp [pathExists]

theorem pathExists_false_iff {fs : List FPath} {p : FPath} :
    pathExists fs p = false ↔ p ∉ fs := by
  simp [pathExists]

theorem mem_mkdirFs {fs : List FPath} {p q : FPath} :
    q ∈ mkdirFs fs p ↔ q = p ∨ q ∈ fs := by
  unfold mkdirFs
  split
  case isTrue h =>
    constructor
    · exact Or.inr
    · rintro (rfl | h2)
      · exact h
      · exact h2
  case isFalse h => simp [List.mem_cons]

theorem nodup_mkdirFs {fs : List FPath} {p : FPath} (h : fs.Nodup) :
    (mkdirFs fs p).Nodup := by
  unfold mkdirFs
  split
  case isTrue _ => exact h
  case isFalse hn => exact List.nodup_cons.mpr ⟨hn, h⟩

theorem mem_fsAfterTmp {env : Env} {args : Args} {q : FPath} :
    q ∈ fsAfterTmp env args ↔ q = args.tmp_dir ∨ q ∈ env.fs := by
  unfold fsAfterTmp
  split
  case isTrue h => exact mem_mkdirFs
  case isFalse h =>
    have hp : args.tmp_dir ∈ env.fs := by
      simp [pathExists] at h
      exact h
    constructor
    · exact Or.inr
    · rintro (rfl | h2)
      · exact hp
      · exact h2

theorem mem_fsAfterTmp2 {env : Env} {args : Args} {t2 q : FPath} :
    q ∈ fsAfterTmp2 env args t2 ↔ q = t2 ∨ q ∈ fsAfterTmp env args := by
  unfold fsAfterTmp2
  split
  case isTrue h => exact mem_mkdirFs
  case isFalse h =>
    have hp : t2 ∈ fsAfterTmp env args := by
      simp [pathExists] at h
      exact h
    constructor
    · exact Or.inr
    · rintro (rfl | h2)
      · exact hp
      · exact h2

theorem mem_fsAfterDirs {env : Env} {args : Args} {t2 q : FPath} :
    q ∈ fsAfterDirs env args t2 ↔
      q = env.cwd ∨ q = t2 ∨ q = args.tmp_dir ∨ q ∈ env.fs := by
  unfold fsAfterDirs
  rw [mem_mkdirFs, mem_fsAfterTmp2, mem_fsAfterTmp]

theorem nodup_fsAfterDirs {env : Env} {args : Args} {t2 : FPath}
    (h : env.fs.Nodup) : (fsAfterDirs env args t2).Nodup := by
  unfold fsAfterDirs fsAfterTmp2 fsAfterTmp
  repeat' split
  all_goals
    first
      | exact nodup_mkdirFs (nodup_mkdirFs (nodup_mkdirFs h))
      | exact nodup_mkdirFs (nodup_mkdirFs h)
      | exact nodup_mkdirFs h

/-! ### Helper lemmas about key resolution -/

theorem resolveFarmer_trace (env : Env) (args : Args) :
    (resolveFarmer env args).2 = [] ∨
      (resolveFarmer env args).2 = [Event.farmerKeyDerive] := by
  unfold resolveFarmer get_farmer_public_key
  repeat' split
  all_goals simp

theorem resolvePool_trace (env : Env) (args : Args) :
    (resolvePool env args).2 = [] ∨
      (resolvePool env args).2 = [Event.poolKeyDerive] := by
  unfold resolvePool get_pool_public_key
  repeat' split
  all_goals simp

theorem resolveKeys_trace_derives (env : Env) (args : Args) :
    ∀ e ∈ (resolveKeys env args).2,
      e = Event.farmerKeyDerive ∨ e = Event.poolKeyDerive := by
  have hf := resolveFarmer_trace env args
  have hp := resolvePool_trace env args
  unfold resolveKeys
  split
  case h_1 e tr heq =>
    intro x hx
    rw [show tr = (resolveFarmer env args).2 from by rw [heq]] at hx
    rcases hf with h | h <;> rw [h] at hx <;> simp at hx
    exact Or.inl hx
  case h_2 fpk tr1 heq =>
    have htr1 : tr1 = (resolveFarmer env args).2 := by rw [heq]
    split
    case h_1 e tr2 heq2 =>
      have htr2 : tr2 = (resolvePool env args).2 := by rw [heq2]
      intro x hx
      simp only [List.mem_append] at hx
      rcases hx with hx | hx
      · rw [htr1] at hx
        rcases hf with h | h <;> rw [h] at hx <;> simp at hx
        exact Or.inl hx
      · rw [htr2] at hx
        rcases hp with h | h <;> rw [h] at hx <;> simp at hx
        exact Or.inr hx
    case h_2 ppk pph tr2 heq2 =>
      have htr2 : tr2 = (resolvePool env args).2 := by rw [heq2]
      split
      all_goals
        intro x hx
        simp only [List.mem_append] at hx
        rcases hx with hx | hx
        · rw [htr1] at hx
          rcases hf with h | h <;> rw [h] at hx <;> simp at hx
          exact Or.inl hx
        · rw [htr2] at hx
          rcases hp with h | h <;> rw [h] at hx <;> simp at hx
          exact Or.inr hx

theorem resolveKeys_ok_exactlyOne {env : Env} {args : Args} {keys : Resolved}
    {tr : List Event} (hres : resolveKeys env args = (.ok keys, tr)) :
    keys.pool_public_key.isNone ≠ keys.pool_contract_puzzle_hash.isNone := by
  unfold resolveKeys at hres
  split at hres
  case h_1 => simp at hres
  case h_2 fpk tr1 heq =>
    split at hres
    case h_1 => simp at hres
    case h_2 ppk pph tr2 heq2 =>
      split at hres
      case isTrue h =>
        simp only [Prod.mk.injEq, Except.ok.injEq] at hres
        rw [← hres.1]
        exact h
      case isFalse h => simp at hres

theorem deriveIdentity_ok (env : Env) (keys : Resolved) (sk : PrivKey)
    (h : keys.pool_public_key.isNone ≠ keys.pool_contract_puzzle_hash.isNone) :
    ∃ pid pm, deriveIdentity env keys sk = .ok (pid, pm) := by
  cases hp : keys.pool_public_key with
  | some ppk =>
    exact ⟨env.calculatePlotIdPk ppk
        (env.generatePlotPublicKey (env.masterSkToLocalPk sk) keys.farmer_public_key),
      env.streamPlotInfoPk ppk keys.farmer_public_key sk,
      by simp [deriveIdentity, hp]⟩
  | none =>
    cases hq : keys.pool_contract_puzzle_hash with
    | some ph =>
      exact ⟨env.calculatePlotIdPh ph
          (env.generatePlotPublicKey (env.masterSkToLocalPk sk) keys.farmer_public_key),
        env.streamPlotInfoPh ph keys.farmer_public_key sk,
        by simp [deriveIdentity, hp, hq]⟩
    | none => rw [hp, hq] at h; simp at h

/-! ### Helper lemmas about traces -/

theorem engineInvoked_append {a b : List Event} :
    engineInvoked (a ++ b) = (engineInvoked a || engineInvoked b) := by
  simp [engineInvoked]

theorem engineCalls_append {a b : List Event} :
    engineCalls (a ++ b) = engineCalls a ++ engineCalls b := by
  simp [engineCalls]

theorem engineInvoked_of_derives {tr : List Event}
    (h : ∀ e ∈ tr, e = Event.farmerKeyDerive ∨ e = Event.poolKeyDerive) :
    engineInvoked tr = false := by
  simp only [engineInvoked, List.any_eq_false]
  intro e he
  rcases h e he with rfl | rfl <;> simp

theorem engineCalls_of_derives {tr : List Event}
    (h : ∀ e ∈ tr, e = Event.farmerKeyDerive ∨ e = Event.poolKeyDerive) :
    engineCalls tr = [] := by
  simp only [engineCalls, List.filterMap_eq_nil_iff]
  intro e he
  rcases h e he with rfl | rfl <;> simp

theorem engineInvoked_sizeEvents {env : Env} {args : Args} {b : Bool} :
    engineInvoked (sizeEvents env args b) = false := by
  unfold sizeEvents
  repeat' split
  all_goals simp [engineInvoked]

theorem engineInvoked_dirEvents {env : Env} {args : Args} {t2 : FPath} :
    engineInvoked (dirEvents env args t2) = false := by
  unfold dirEvents
  repeat' split
  all_goals simp [engineInvoked]

theorem engineInvoked_cleanupEvents {env : Env} {args : Args} {t2 : FPath}
    {c1 c2 : Bool} {fn : String} :
    engineInvoked (cleanupEvents env args t2 c1 c2 fn) = false := by
  unfold cleanupEvents
  repeat' split
  all_goals simp [engineInvoked]

theorem engineCalls_sizeEvents {env : Env} {args : Args} {b : Bool} :
    engineCalls (sizeEvents env args b) = [] := by
  unfold sizeEvents
  repeat' split
  all_goals simp [engineCalls]

theorem engineCalls_dirEvents {env : Env} {args : Args} {t2 : FPath} :
    engineCalls (dirEvents env args t2) = [] := by
  unfold dirEvents
  repeat' split
  all_goals simp [engineCalls]

theorem engineCalls_cleanupEvents {env : Env} {args : Args} {t2 : FPath}
    {c1 c2 : Bool} {fn : String} :
    engineCalls (cleanupEvents env args t2 c1 c2 fn) = [] := by
  unfold cleanupEvents
  repeat' split
  all_goals simp [engineCalls]

theorem infoSummary_not_mem_sizeEvents {env : Env} {args : Args} {b : Bool} :
    Event.infoSummary ∉ sizeEvents env args b := by
  unfold sizeEvents
  repeat' split
  all_goals simp

theorem infoSummary_not_mem_dirEvents {env : Env} {args : Args} {t2 : FPath} :
    Event.infoSummary ∉ dirEvents env args t2 := by
  unfold dirEvents
  repeat' split
  all_goals simp

theorem infoSummary_mem_cleanupEvents {env : Env} {args : Args} {t2 : FPath}
    {c1 c2 : Bool} {fn : String} :
    Event.infoSummary ∈ cleanupEvents env args t2 c1 c2 fn := by
  unfold cleanupEvents
  simp

theorem warnKFloor_not_mem_dirEvents {env : Env} {args : Args} {t2 : FPath} :
    Event.warnKFloor ∉ dirEvents env args t2 := by
  unfold dirEvents
  repeat' split
  all_goals simp

theorem warnKFloor_not_mem_cleanupEvents {env : Env} {args : Args}
    {t2 : FPath} {c1 c2 : Bool} {fn : String} :
    Event.warnKFloor ∉ cleanupEvents env args t2 c1 c2 fn := by
  unfold cleanupEvents
  repeat' split
  all_goals simp

theorem warnKFloor_mem_sizeEvents_iff {env : Env} {args : Args} {b : Bool} :
    Event.warnKFloor ∈ sizeEvents env args b ↔ args.size < 22 := by
  unfold sizeEvents
  repeat' split
  all_goals simp_all

/-! ### Helper lemmas about dispatch -/

theorem dispatch_skip {env : Env} {args : Args} {size : Nat}
    {t2 fp : FPath} {fn : String} {fd : FPath} {pm : Memo} {pid : Bytes32}
    {fs : List FPath} (h : pathExists fs fp = true) :
    dispatch env args size t2 fp fn fd pm pid fs =
      (.ok (), [Event.infoAlreadyExists fn]) := by
  unfold dispatch
  simp [h]

theorem dispatch_fst_ok (env : Env) (args : Args) (size : Nat)
    (t2 fp : FPath) (fn : String) (fd : FPath) (pm : Memo) (pid : Bytes32)
    (fs : List FPath) (h : env.engineOk = true) :
    (dispatch env args size t2 fp fn fd pm pid fs).1 = .ok () := by
  unfold dispatch
  repeat' split
  all_goals simp_all

theorem dispatch_phase0 (env : Env) (args : Args) (size : Nat)
    (t2 fp : FPath) (fn : String) (fd : FPath) (pm : Memo) (pid : Bytes32)
    (fs : List FPath) (h : pathExists fs fp = false) (hp : args.phase = 0) :
    dispatch env args size t2 fp fn fd pm pid fs =
      ((if env.engineOk then .ok () else .error .plottingEngineFailure),
       [Event.infoStartingPlot,
        Event.engine (EngineCall.createPlotDisk args.tmp_dir t2 fd fn size pm
          pid args.buffer args.buckets args.stripe_size args.num_threads
          args.nobitfield)]) := by
  unfold dispatch
  simp [h, hp]

theorem dispatch_phase1 (env : Env) (args : Args) (size : Nat)
    (t2 fp : FPath) (fn : String) (fd : FPath) (pm : Memo) (pid : Bytes32)
    (fs : List FPath) (h : pathExists fs fp = false) (hp : args.phase = 1) :
    dispatch env args size t2 fp fn fd pm pid fs =
      ((if env.engineOk then .ok () else .error .plottingEngineFailure),
       [Event.infoStartingPlot,
        Event.engine (EngineCall.createPlotDiskPhase1 args.tmp_dir t2
          args.final_dir fn size pm pid args.buffer args.buckets
          args.stripe_size args.num_threads args.nobitfield)]) := by
  unfold dispatch
  simp [h, hp]

theorem dispatch_phase2 (env : Env) (args : Args) (size : Nat)
    (t2 fp : FPath) (fn : String) (fd : FPath) (pm : Memo) (pid : Bytes32)
    (fs : List FPath) (h : pathExists fs fp = false) (hp : args.phase = 2) :
    dispatch env args size t2 fp fn fd pm pid fs =
      ((if env.engineOk then .ok () else .error .plottingEngineFailure),
       [Event.infoStartingPlot,
        Event.engine (EngineCall.createPlotDiskPhase234 args.tmp_dir t2 fd fn
          size args.buffer args.buckets args.stripe_size args.nobitfield)]) := by
  unfold dispatch
  simp [h, hp]

theorem dispatch_phase_other {env : Env} {args : Args} {size : Nat}
    {t2 fp : FPath} {fn : String} {fd : FPath} {pm : Memo} {pid : Bytes32}
    {fs : List FPath} (h : pathExists fs fp = false) (h0 : args.phase ≠ 0)
    (h1 : args.phase ≠ 1) (h2 : args.phase ≠ 2) :
    dispatch env args size t2 fp fn fd pm pid fs =
      (.ok (), [Event.infoStartingPlot]) := by
  unfold dispatch
  simp [h, h0, h1, h2]

theorem dispatch_calls_size (env : Env) (args : Args) (size : Nat)
    (t2 fp : FPath) (fn : String) (fd : FPath) (pm : Memo) (pid : Bytes32)
    (fs : List FPath) :
    ∀ c ∈ engineCalls (dispatch env args size t2 fp fn fd pm pid fs).2,
      callSize c = size := by
  unfold dispatch
  repeat' split
  all_goals simp [engineCalls, callSize]

theorem dispatch_calls_filename (env : Env) (args : Args) (size : Nat)
    (t2 fp : FPath) (fn : String) (fd : FPath) (pm : Memo) (pid : Bytes32)
    (fs : List FPath) :
    ∀ c ∈ engineCalls (dispatch env args size t2 fp fn fd pm pid fs).2,
      callFilename c = fn := by
  unfold dispatch
  repeat' split
  all_goals simp [engineCalls, callFilename]

/-! ### Characterisation of a run past key resolution -/

theorem create_plot_run (env : Env) (args : Args) (keys : Resolved)
    (tr0 : List Event) (pid : Bytes32) (pm : Memo)
    (hres : resolveKeys env args = (.ok keys, tr0))
    (hid : deriveIdentity env keys env.keyGen = .ok (pid, pm)) :
    create_plot env args none =
      match dispatch env args (adjustedSize args.size) (defaultTmp2 args)
        args.filename (pathName args.filename) env.cwd (ovMemo env args pm)
        (ovPlotId env args pid) (fsAfterDirs env args (defaultTmp2 args)) with
      | (.error e, evD) =>
        ⟨.error e,
         tr0 ++ sizeEvents env args true ++ dirEvents env args (defaultTmp2 args) ++
           [Event.identityDerive] ++ evD,
         fsAfterDirs env args (defaultTmp2 args)⟩
      | (.ok _, evD) =>
        ⟨.ok (),
         tr0 ++ sizeEvents env args true ++ dirEvents env args (defaultTmp2 args) ++
           [Event.identityDerive] ++ evD ++
           cleanupEvents env args (defaultTmp2 args) (tmpDirCreated env args)
             (tmp2DirCreated env args (defaultTmp2 args)) (pathName args.filename),
         cleanupFs env args (defaultTmp2 args) (tmpDirCreated env args)
           (tmp2DirCreated env args (defaultTmp2 args))
           (fsAfterDirs env args (defaultTmp2 args))⟩ := by
  unfold create_plot
  rw [hres]
  simp only [Option.isNone_none, hid]

theorem create_plot_run_ok (env : Env) (args : Args) (keys : Resolved)
    (tr0 : List Event) (pid : Bytes32) (pm : Memo) (evD : List Event)
    (hres : resolveKeys env args = (.ok keys, tr0))
    (hid : deriveIdentity env keys env.keyGen = .ok (pid, pm))
    (hd : dispatch env args (adjustedSize args.size) (defaultTmp2 args)
        args.filename (pathName args.filename) env.cwd (ovMemo env args pm)
        (ovPlotId env args pid) (fsAfterDirs env args (defaultTmp2 args)) =
      (.ok (), evD)) :
    create_plot env args none =
      ⟨.ok (),
       tr0 ++ sizeEvents env args true ++ dirEvents env args (defaultTmp2 args) ++
         [Event.identityDerive] ++ evD ++
         cleanupEvents env args (defaultTmp2 args) (tmpDirCreated env args)
           (tmp2DirCreated env args (defaultTmp2 args)) (pathName args.filename),
       cleanupFs env args (defaultTmp2 args) (tmpDirCreated env args)
         (tmp2DirCreated env args (defaultTmp2 args))
         (fsAfterDirs env args (defaultTmp2 args))⟩ := by
  have hrun := create_plot_run env args keys tr0 pid pm hres hid
  rw [hd] at hrun
  exact hrun

theorem create_plot_run_error (env : Env) (args : Args) (keys : Resolved)
    (tr0 : List Event) (pid : Bytes32) (pm : Memo) (e : PlotError)
    (evD : List Event)
    (hres : resolveKeys env args = (.ok keys, tr0))
    (hid : deriveIdentity env keys env.keyGen = .ok (pid, pm))
    (hd : dispatch env args (adjustedSize args.size) (defaultTmp2 args)
        args.filename (pathName args.filename) env.cwd (ovMemo env args pm)
        (ovPlotId env args pid) (fsAfterDirs env args (defaultTmp2 args)) =
      (.error e, evD)) :
    create_plot env args none =
      ⟨.error e,
       tr0 ++ sizeEvents env args true ++ dirEvents env args (defaultTmp2 args) ++
         [Event.identityDerive] ++ evD,
       fsAfterDirs env args (defaultTmp2 args)⟩ := by
  have hrun := create_plot_run env args keys tr0 pid pm hres hid
  rw [hd] at hrun
  exact hrun

theorem resolveKeys_tr_derives {env : Env} {args : Args}
    {r : Except PlotError Resolved} {tr : List Event}
    (h : resolveKeys env args = (r, tr)) :
    ∀ e ∈ tr, e = Event.farmerKeyDerive ∨ e = Event.poolKeyDerive := by
  have hall := resolveKeys_trace_derives env args
  rw [h] at hall
  exact hall

theorem pathExists_fsAfterDirs_of_mem {env : Env} {args : Args}
    {t2 p : FPath} (h : p ∈ env.fs) :
    pathExists (fsAfterDirs env args t2) p = true := by
  rw [pathExists_true_iff, mem_fsAfterDirs]
  tauto

theorem pathExists_fsAfterDirs_of_not {env : Env} {args : Args}
    {t2 p : FPath} (h0 : p ∉ env.fs) (h1 : p ≠ args.tmp_dir) (h2 : p ≠ t2)
    (h3 : p ≠ env.cwd) :
    pathExists (fsAfterDirs env args t2) p = false := by
  rw [pathExists_false_iff, mem_fsAfterDirs]
  tauto

theorem tmpDirCreated_true_iff {env : Env} {args : Args} :
    tmpDirCreated env args = true ↔ args.tmp_dir ∉ env.fs := by
  unfold tmpDirCreated
  rw [Bool.not_eq_true', pathExists_false_iff]

theorem tmpDirCreated_false_iff {env : Env} {args : Args} :
    tmpDirCreated env args = false ↔ args.tmp_dir ∈ env.fs := by
  unfold tmpDirCreated
  rw [Bool.not_eq_false', pathExists_true_iff]

theorem tmp2DirCreated_true_iff {env : Env} {args : Args} {t2 : FPath} :
    tmp2DirCreated env args t2 = true ↔
      t2 ≠ args.tmp_dir ∧ t2 ∉ env.fs := by
  unfold tmp2DirCreated
  rw [Bool.not_eq_true', pathExists_false_iff, mem_fsAfterTmp]
  tauto

theorem tmp2DirCreated_false_iff {env : Env} {args : Args} {t2 : FPath} :
    tmp2DirCreated env args t2 = false ↔
      t2 = args.tmp_dir ∨ t2 ∈ env.fs := by
  unfold tmp2DirCreated
  rw [Bool.not_eq_false', pathExists_true_iff, mem_fsAfterTmp]

/-! ### The claims -/

/-- C8: when no explicit farmer public key hex is supplied and the
key-storage lookup (by fingerprint if given, else the first available
key) returns no key, create_plot fails with the NoKeyAvailable error of
get_farmer_public_key (whose message tells the caller to add or generate
keys or pass one with -f). -/
theorem C8_no_key_available (env : Env) (args : Args)
    (tpk : Option (List PrivKey))
    (hf : args.farmer_public_key = none)
    (hl : lookupSk env args.alt_fingerprint = none) :
    (create_plot env args tpk).outcome = .error (.noKeyAvailable "-f") := by
  have hrk : resolveKeys env args = (.error (.noKeyAvailable "-f"), []) := by
    unfold resolveKeys resolveFarmer get_farmer_public_key
    rw [hf, hl]
  unfold create_plot
  rw [hrk]

/-- C8 witness: the theorem applied to the empty keychain. -/
theorem C8_witness :
    (argsC8.farmer_public_key = none ∧
     lookupSk envC8 argsC8.alt_fingerprint = none) ∧
    (create_plot envC8 argsC8 none).outcome = .error (.noKeyAvailable "-f") :=
  ⟨⟨by decide, by decide⟩,
   C8_no_key_available envC8 argsC8 none (by decide) (by decide)⟩

/-- C4 counterexample: with no explicit farmer key hex, a stored key in
the keychain, and both a pool public key and a pool contract address
supplied, create_plot does fail with ConflictingPoolSelection, but the
farmer-key derivation has already taken place before the failure — the
claim that this happens before any key derivation takes place is false. -/
theorem C4_counterexample :
    (create_plot envW argsC4 none).outcome = .error .conflictingPoolSelection ∧
    Event.farmerKeyDerive ∈ (create_plot envW argsC4 none).trace := by
  constructor
  · decide
  · decide

/-- C4 (amended): when both an explicit pool public key hex and a pool
contract address are supplied, and farmer-key resolution (which runs
first and may itself derive a key from storage, or fail with
NoKeyAvailable) succeeds, create_plot fails with ConflictingPoolSelection
before any pool-key derivation, before identity derivation and before
any engine call. -/
theorem C4_conflicting_pool_selection (env : Env) (args : Args)
    (tpk : Option (List PrivKey)) (fpk : PubKey) (trf : List Event)
    (s a : String)
    (hp : args.pool_public_key = some s)
    (hc : args.pool_contract_address = some a)
    (hf : resolveFarmer env args = (.ok fpk, trf)) :
    (create_plot env args tpk).outcome = .error .conflictingPoolSelection ∧
    Event.poolKeyDerive ∉ (create_plot env args tpk).trace ∧
    Event.identityDerive ∉ (create_plot env args tpk).trace ∧
    engineInvoked (create_plot env args tpk).trace = false := by
  have hrp : resolvePool env args = (.error .conflictingPoolSelection, []) := by
    unfold resolvePool
    rw [hp, hc]
  have hrk : resolveKeys env args = (.error .conflictingPoolSelection, trf) := by
    unfold resolveKeys
    rw [hf, hrp]
    simp
  have hcp : create_plot env args tpk =
      ⟨.error .conflictingPoolSelection, trf, env.fs⟩ := by
    unfold create_plot
    rw [hrk]
  rw [hcp]
  have htrf : trf = [] ∨ trf = [Event.farmerKeyDerive] := by
    have h2 := resolveFarmer_trace env args
    rw [hf] at h2
    exact h2
  refine ⟨rfl, ?_, ?_, ?_⟩
  all_goals rcases htrf with rfl | rfl <;> simp [engineInvoked]

/-- C4 witness: the amended theorem applied to a keychain holding a key,
so farmer resolution succeeds by derivation. -/
theorem C4_witness :
    (argsC4.pool_public_key = some "cc" ∧
     argsC4.pool_contract_address = some "addr" ∧
     resolveFarmer envW argsC4 = (.ok 105, [Event.farmerKeyDerive])) ∧
    (create_plot envW argsC4 none).outcome = .error .conflictingPoolSelection :=
  ⟨⟨by decide, by decide, by decide⟩,
   (C4_conflicting_pool_selection envW argsC4 none 105 [Event.farmerKeyDerive]
     "cc" "addr" (by decide) (by decide) (by decide)).1⟩

/-- C5: after key resolution succeeds, exactly one of the pool public key
and the pool contract puzzle hash is populated; with neither input given
the pool key is derived from the stored private key found by `lookupSk`
(fingerprint if given, else the first key); with a contract address given
it is decoded into the puzzle hash and no pool-key derivation happens. -/
theorem C5_resolved_keys_invariant (env : Env) (args : Args)
    (keys : Resolved) (tr : List Event)
    (hres : resolveKeys env args = (.ok keys, tr)) :
    keys.pool_public_key.isSome = !keys.pool_contract_puzzle_hash.isSome ∧
    (args.pool_public_key = none → args.pool_contract_address = none →
      ∃ sk, lookupSk env args.alt_fingerprint = some sk ∧
        keys.pool_public_key = some (env.masterSkToPoolPk sk) ∧
        keys.pool_contract_puzzle_hash = none) ∧
    (∀ addr, args.pool_public_key = none →
      args.pool_contract_address = some addr →
      keys.pool_contract_puzzle_hash = some (env.decodePuzzleHash addr) ∧
      keys.pool_public_key = none ∧ Event.poolKeyDerive ∉ tr) := by
  refine ⟨?_, ?_, ?_⟩
  · have h := resolveKeys_ok_exactlyOne hres
    cases hp : keys.pool_public_key <;>
      cases hq : keys.pool_contract_puzzle_hash <;> simp_all
  · intro hpk hca
    unfold resolveKeys at hres
    split at hres
    case h_1 => simp at hres
    case h_2 fpk tr1 heqF =>
      cases hl : lookupSk env args.alt_fingerprint with
      | none =>
        have hrp : resolvePool env args = (.error (.noKeyAvailable "-p"), []) := by
          unfold resolvePool get_pool_public_key
          rw [hpk, hca, hl]
        rw [hrp] at hres
        simp at hres
      | some sk =>
        have hrp : resolvePool env args =
            (.ok (some (env.masterSkToPoolPk sk), none), [Event.poolKeyDerive]) := by
          unfold resolvePool get_pool_public_key
          rw [hpk, hca, hl]
        rw [hrp] at hres
        simp at hres
        refine ⟨sk, rfl, ?_, ?_⟩ <;> rw [← hres.1]
  · intro addr hpk hca
    unfold resolveKeys at hres
    split at hres
    case h_1 => simp at hres
    case h_2 fpk tr1 heqF =>
      have hrp : resolvePool env args =
          (.ok (none, some (env.decodePuzzleHash addr)), []) := by
        unfold resolvePool
        rw [hpk, hca]
      rw [hrp] at hres
      simp at hres
      obtain ⟨h1, h2⟩ := hres
      refine ⟨by rw [← h1], by rw [← h1], ?_⟩
      have htr1 : tr1 = [] ∨ tr1 = [Event.farmerKeyDerive] := by
        have h3 := resolveFarmer_trace env args
        rw [heqF] at h3
        exact h3
      rw [← h2]
      rcases htr1 with rfl | rfl <;> simp

/-- C5 witness: the theorem applied to a job with neither pool input, so
the pool key is derived from the first stored key. -/
theorem C5_witness :
    (resolveKeys envW argsC5 =
      (.ok ⟨1, some 205, none⟩, [Event.poolKeyDerive])) ∧
    ((⟨1, some 205, none⟩ : Resolved).pool_public_key.isSome =
      !(⟨1, some 205, none⟩ : Resolved).pool_contract_puzzle_hash.isSome) :=
  ⟨by decide,
   (C5_resolved_keys_invariant envW argsC5 ⟨1, some 205, none⟩
     [Event.poolKeyDerive] (by decide)).1⟩

/-- C1: when the requested output file path already exists at dispatch
time, create_plot invokes no plotting-engine entry point (none of
create_plot_disk, create_plot_disk_phase1, create_plot_disk_phase234),
still runs the temp-directory cleanup step (the Summary section of lines
196-211), and finishes successfully. -/
theorem C1_idempotent_skip (env : Env) (args : Args) (keys : Resolved)
    (tr0 : List Event)
    (hres : resolveKeys env args = (.ok keys, tr0))
    (hex : args.filename ∈ env.fs) :
    (create_plot env args none).outcome = .ok () ∧
    engineInvoked (create_plot env args none).trace = false ∧
    Event.infoSummary ∈ (create_plot env args none).trace := by
  obtain ⟨pid, pm, hid⟩ :=
    deriveIdentity_ok env keys env.keyGen (resolveKeys_ok_exactlyOne hres)
  have hrun := create_plot_run env args keys tr0 pid pm hres hid
  rw [dispatch_skip (pathExists_fsAfterDirs_of_mem hex)] at hrun
  have hrun2 : create_plot env args none =
      ⟨.ok (),
       tr0 ++ sizeEvents env args true ++ dirEvents env args (defaultTmp2 args) ++
         [Event.identityDerive] ++
         [Event.infoAlreadyExists (pathName args.filename)] ++
         cleanupEvents env args (defaultTmp2 args) (tmpDirCreated env args)
           (tmp2DirCreated env args (defaultTmp2 args)) (pathName args.filename),
       cleanupFs env args (defaultTmp2 args) (tmpDirCreated env args)
         (tmp2DirCreated env args (defaultTmp2 args))
         (fsAfterDirs env args (defaultTmp2 args))⟩ := hrun
  rw [hrun2]
  have h0 : engineInvoked tr0 = false :=
    engineInvoked_of_derives (resolveKeys_tr_derives hres)
  refine ⟨rfl, ?_, ?_⟩
  · simp only [engineInvoked_append, engineInvoked_sizeEvents,
      engineInvoked_dirEvents, engineInvoked_cleanupEvents, h0,
      Bool.or_false, Bool.false_or]
    rfl
  · exact List.mem_append.mpr (Or.inr infoSummary_mem_cleanupEvents)

theorem engineCalls_identity :
    engineCalls [Event.identityDerive] = [] := rfl

theorem engineCalls_starting_engine {c : EngineCall} :
    engineCalls [Event.infoStartingPlot, Event.engine c] = [c] := rfl

theorem engineCalls_starting_only :
    engineCalls [Event.infoStartingPlot] = [] := rfl

theorem engineCalls_already {s : String} :
    engineCalls [Event.infoAlreadyExists s] = [] := rfl

theorem mkdirCwd_mem_dirEvents {env : Env} {args : Args} {t2 : FPath} :
    Event.mkdirCall env.cwd ∈ dirEvents env args t2 := by
  unfold dirEvents
  simp

theorem warnKFloor_not_mem_dispatch (env : Env) (args : Args) (size : Nat)
    (t2 fp : FPath) (fn : String) (fd : FPath) (pm : Memo) (pid : Bytes32)
    (fs : List FPath) :
    Event.warnKFloor ∉ (dispatch env args size t2 fp fn fd pm pid fs).2 := by
  unfold dispatch
  repeat' split
  all_goals simp

theorem infoSummary_not_mem_dispatch {env : Env} {args : Args} {size : Nat}
    {t2 fp : FPath} {fn : String} {fd : FPath} {pm : Memo} {pid : Bytes32}
    {fs : List FPath} :
    Event.infoSummary ∉ (dispatch env args size t2 fp fn fd pm pid fs).2 := by
  unfold dispatch
  repeat' split
  all_goals simp

theorem dispatch_error_is_engine_failure (env : Env) (args : Args)
    (size : Nat) (t2 fp : FPath) (fn : String) (fd : FPath) (pm : Memo)
    (pid : Bytes32) (fs : List FPath) {e : PlotError}
    (h : (dispatch env args size t2 fp fn fd pm pid fs).1 = .error e) :
    e = .plottingEngineFailure := by
  unfold dispatch at h
  repeat' split at h
  all_goals simp_all

/-- C1 witness: the theorem applied to a filesystem already holding the
output file. -/
theorem C1_witness :
    (resolveKeys envC1 argsW = (.ok ⟨1, some 1, none⟩, []) ∧
     argsW.filename ∈ envC1.fs) ∧
    (create_plot envC1 argsW none).outcome = .ok () :=
  ⟨⟨by decide, by decide⟩,
   (C1_idempotent_skip envC1 argsW ⟨1, some 1, none⟩ [] (by decide)
     (by decide)).1⟩

/-- C9: for a phase selector other than 0, 1 or 2, with the output file
absent, create_plot invokes no engine entry point, raises no error for
the unrecognized phase, still runs the cleanup step and finishes as a
success. -/
theorem C9_unknown_phase_no_dispatch (env : Env) (args : Args)
    (keys : Resolved) (tr0 : List Event)
    (hres : resolveKeys env args = (.ok keys, tr0))
    (hnm : args.filename ∉ env.fs) (hn1 : args.filename ≠ args.tmp_dir)
    (hn2 : args.filename ≠ defaultTmp2 args) (hn3 : args.filename ≠ env.cwd)
    (h0 : args.phase ≠ 0) (h1 : args.phase ≠ 1) (h2 : args.phase ≠ 2) :
    (create_plot env args none).outcome = .ok () ∧
    engineInvoked (create_plot env args none).trace = false ∧
    Event.infoSummary ∈ (create_plot env args none).trace := by
  obtain ⟨pid, pm, hid⟩ :=
    deriveIdentity_ok env keys env.keyGen (resolveKeys_ok_exactlyOne hres)
  have hrun := create_plot_run env args keys tr0 pid pm hres hid
  rw [dispatch_phase_other (pathExists_fsAfterDirs_of_not hnm hn1 hn2 hn3)
    h0 h1 h2] at hrun
  have hrun2 : create_plot env args none =
      ⟨.ok (),
       tr0 ++ sizeEvents env args true ++ dirEvents env args (defaultTmp2 args) ++
         [Event.identityDerive] ++ [Event.infoStartingPlot] ++
         cleanupEvents env args (defaultTmp2 args) (tmpDirCreated env args)
           (tmp2DirCreated env args (defaultTmp2 args)) (pathName args.filename),
       cleanupFs env args (defaultTmp2 args) (tmpDirCreated env args)
         (tmp2DirCreated env args (defaultTmp2 args))
         (fsAfterDirs env args (defaultTmp2 args))⟩ := hrun
  rw [hrun2]
  have hE : engineInvoked tr0 = false :=
    engineInvoked_of_derives (resolveKeys_tr_derives hres)
  refine ⟨rfl, ?_, ?_⟩
  · simp only [engineInvoked_append, engineInvoked_sizeEvents,
      engineInvoked_dirEvents, engineInvoked_cleanupEvents, hE,
      Bool.or_false, Bool.false_or]
    rfl
  · exact List.mem_append.mpr (Or.inr infoSummary_mem_cleanupEvents)

/-- C9 witness: the theorem applied to phase 5. -/
theorem C9_witness :
    (resolveKeys envW argsC9 = (.ok ⟨1, some 1, none⟩, []) ∧
     argsC9.phase = 5) ∧
    ((create_plot envW argsC9 none).outcome = .ok () ∧
     engineInvoked (create_plot envW argsC9 none).trace = false) :=
  ⟨⟨by decide, by decide⟩,
   ⟨(C9_unknown_phase_no_dispatch envW argsC9 ⟨1, some 1, none⟩ []
      (by decide) (by decide) (by decide) (by decide) (by decide)
      (by decide) (by decide) (by decide)).1,
    (C9_unknown_phase_no_dispatch envW argsC9 ⟨1, some 1, none⟩ []
      (by decide) (by decide) (by decide) (by decide) (by decide)
      (by decide) (by decide) (by decide)).2.1⟩⟩

/-- C10: for phase 0 and phase 2 the final-directory argument handed to
the engine is the process working directory Path.cwd() — the directory
the directory that the line-107 mkdir of the job just ensured — not the directory component of
the requested output path nor the caller-supplied final_dir; phase 1
instead passes the caller-supplied final_dir. -/
theorem C10_final_dir_is_cwd (env : Env) (args : Args) (keys : Resolved)
    (tr0 : List Event)
    (hres : resolveKeys env args = (.ok keys, tr0))
    (heng : env.engineOk = true)
    (hnm : args.filename ∉ env.fs) (hn1 : args.filename ≠ args.tmp_dir)
    (hn2 : args.filename ≠ defaultTmp2 args) (hn3 : args.filename ≠ env.cwd) :
    ((args.phase = 0 ∨ args.phase = 2) →
      (∃ c, engineCalls (create_plot env args none).trace = [c] ∧
        callFinalDir c = env.cwd) ∧
      Event.mkdirCall env.cwd ∈ (create_plot env args none).trace) ∧
    (args.phase = 1 →
      ∃ c, engineCalls (create_plot env args none).trace = [c] ∧
        callFinalDir c = args.final_dir) := by
  obtain ⟨pid, pm, hid⟩ :=
    deriveIdentity_ok env keys env.keyGen (resolveKeys_ok_exactlyOne hres)
  have hnp := pathExists_fsAfterDirs_of_not hnm hn1 hn2 hn3
  have hc0 : engineCalls tr0 = [] :=
    engineCalls_of_derives (resolveKeys_tr_derives hres)
  have hm : Event.mkdirCall env.cwd ∈ dirEvents env args (defaultTmp2 args) :=
    mkdirCwd_mem_dirEvents
  constructor
  · intro hph
    rcases hph with h | h
    · have hd := dispatch_phase0 env args (adjustedSize args.size) (defaultTmp2 args)
        args.filename (pathName args.filename) env.cwd
        (ovMemo env args pm) (ovPlotId env args pid)
        (fsAfterDirs env args (defaultTmp2 args)) hnp h
      rw [heng, if_pos rfl] at hd
      have hrun := create_plot_run_ok env args keys tr0 pid pm _ hres hid hd
      rw [hrun]
      refine ⟨⟨EngineCall.createPlotDisk args.tmp_dir (defaultTmp2 args)
        env.cwd (pathName args.filename) (adjustedSize args.size)
        (ovMemo env args pm) (ovPlotId env args pid) args.buffer
        args.buckets args.stripe_size args.num_threads args.nobitfield,
        ?_, rfl⟩, ?_⟩
      · simp only [engineCalls_append, engineCalls_sizeEvents,
          engineCalls_dirEvents, engineCalls_cleanupEvents, hc0,
          engineCalls_identity, engineCalls_starting_engine,
          List.nil_append, List.append_nil]
      · simp only [List.mem_append]
        tauto
    · have hd := dispatch_phase2 env args (adjustedSize args.size) (defaultTmp2 args)
        args.filename (pathName args.filename) env.cwd
        (ovMemo env args pm) (ovPlotId env args pid)
        (fsAfterDirs env args (defaultTmp2 args)) hnp h
      rw [heng, if_pos rfl] at hd
      have hrun := create_plot_run_ok env args keys tr0 pid pm _ hres hid hd
      rw [hrun]
      refine ⟨⟨EngineCall.createPlotDiskPhase234 args.tmp_dir
        (defaultTmp2 args) env.cwd (pathName args.filename)
        (adjustedSize args.size) args.buffer args.buckets args.stripe_size
        args.nobitfield, ?_, rfl⟩, ?_⟩
      · simp only [engineCalls_append, engineCalls_sizeEvents,
          engineCalls_dirEvents, engineCalls_cleanupEvents, hc0,
          engineCalls_identity, engineCalls_starting_engine,
          List.nil_append, List.append_nil]
      · simp only [List.mem_append]
        tauto
  · intro hph
    have hd := dispatch_phase1 env args (adjustedSize args.size) (defaultTmp2 args)
        args.filename (pathName args.filename) env.cwd
        (ovMemo env args pm) (ovPlotId env args pid)
        (fsAfterDirs env args (defaultTmp2 args)) hnp hph
    rw [heng, if_pos rfl] at hd
    have hrun := create_plot_run_ok env args keys tr0 pid pm _ hres hid hd
    rw [hrun]
    refine ⟨EngineCall.createPlotDiskPhase1 args.tmp_dir (defaultTmp2 args)
      args.final_dir (pathName args.filename) (adjustedSize args.size)
      (ovMemo env args pm) (ovPlotId env args pid) args.buffer args.buckets
      args.stripe_size args.num_threads args.nobitfield, ?_, rfl⟩
    simp only [engineCalls_append, engineCalls_sizeEvents,
      engineCalls_dirEvents, engineCalls_cleanupEvents, hc0,
      engineCalls_identity, engineCalls_starting_engine,
      List.nil_append, List.append_nil]

/-- C10 witness: the theorem applied to a phase-1 job. -/
theorem C10_witness :
    (resolveKeys envW argsC10 = (.ok ⟨1, some 1, none⟩, []) ∧
     argsC10.phase = 1) ∧
    (∃ c, engineCalls (create_plot envW argsC10 none).trace = [c] ∧
      callFinalDir c = argsC10.final_dir) :=
  ⟨⟨by decide, by decide⟩,
   (C10_final_dir_is_cwd envW argsC10 ⟨1, some 1, none⟩ [] (by decide)
     (by decide) (by decide) (by decide) (by decide) (by decide)).2
     (by decide)⟩

/-- C6: a size below 22 is coerced up to exactly 22 (the size every
engine call receives) with the k-floor warning logged, and the job is not
rejected for it; a size of 22 or more passes through unchanged and logs
no k-floor warning. -/
theorem C6_k_size_floor (env : Env) (args : Args) (keys : Resolved)
    (tr0 : List Event)
    (hres : resolveKeys env args = (.ok keys, tr0)) :
    (args.size < 22 → Event.warnKFloor ∈ (create_plot env args none).trace) ∧
    (22 ≤ args.size → Event.warnKFloor ∉ (create_plot env args none).trace) ∧
    (∀ c ∈ engineCalls (create_plot env args none).trace,
      callSize c = if args.size < 22 then 22 else args.size) ∧
    ((create_plot env args none).outcome = .ok () ∨
     (create_plot env args none).outcome = .error .plottingEngineFailure) := by
  obtain ⟨pid, pm, hid⟩ :=
    deriveIdentity_ok env keys env.keyGen (resolveKeys_ok_exactlyOne hres)
  have hc0 : engineCalls tr0 = [] :=
    engineCalls_of_derives (resolveKeys_tr_derives hres)
  rcases hd : dispatch env args (adjustedSize args.size) (defaultTmp2 args)
    args.filename (pathName args.filename) env.cwd (ovMemo env args pm)
    (ovPlotId env args pid) (fsAfterDirs env args (defaultTmp2 args))
    with ⟨o, evD⟩
  have hsz : ∀ c ∈ engineCalls evD, callSize c = adjustedSize args.size := by
    have h5 := dispatch_calls_size env args (adjustedSize args.size) (defaultTmp2 args)
        args.filename (pathName args.filename) env.cwd
        (ovMemo env args pm) (ovPlotId env args pid)
        (fsAfterDirs env args (defaultTmp2 args))
    rw [hd] at h5
    exact h5
  have hnd : Event.warnKFloor ∉ evD := by
    have h5 := warnKFloor_not_mem_dispatch env args (adjustedSize args.size) (defaultTmp2 args)
        args.filename (pathName args.filename) env.cwd
        (ovMemo env args pm) (ovPlotId env args pid)
        (fsAfterDirs env args (defaultTmp2 args))
    rw [hd] at h5
    exact h5
  cases o with
  | ok u =>
    cases u
    have hrun := create_plot_run_ok env args keys tr0 pid pm evD hres hid hd
    rw [hrun]
    refine ⟨?_, ?_, ?_, Or.inl rfl⟩
    · intro h
      have hw : Event.warnKFloor ∈ sizeEvents env args true :=
        warnKFloor_mem_sizeEvents_iff.mpr h
      simp only [List.mem_append]
      tauto
    · intro h hmem
      have h22 : ¬ args.size < 22 := by omega
      simp only [List.mem_append] at hmem
      rcases hmem with ((((hm | hm) | hm) | hm) | hm) | hm
      · rcases resolveKeys_tr_derives hres _ hm with h5 | h5 <;> simp at h5
      · exact h22 (warnKFloor_mem_sizeEvents_iff.mp hm)
      · exact warnKFloor_not_mem_dirEvents hm
      · simp at hm
      · exact hnd hm
      · exact warnKFloor_not_mem_cleanupEvents hm
    · intro c hc
      simp only [engineCalls_append, engineCalls_sizeEvents,
        engineCalls_dirEvents, engineCalls_cleanupEvents, hc0,
        engineCalls_identity, List.nil_append, List.append_nil] at hc
      exact hsz c hc
  | error e =>
    have he : e = .plottingEngineFailure := by
      refine dispatch_error_is_engine_failure env args (adjustedSize args.size) (defaultTmp2 args)
        args.filename (pathName args.filename) env.cwd
        (ovMemo env args pm) (ovPlotId env args pid)
        (fsAfterDirs env args (defaultTmp2 args)) ?_
      rw [hd]
    subst he
    have hrun :=
      create_plot_run_error env args keys tr0 pid pm _ evD hres hid hd
    rw [hrun]
    refine ⟨?_, ?_, ?_, Or.inr rfl⟩
    · intro h
      have hw : Event.warnKFloor ∈ sizeEvents env args true :=
        warnKFloor_mem_sizeEvents_iff.mpr h
      simp only [List.mem_append]
      tauto
    · intro h hmem
      have h22 : ¬ args.size < 22 := by omega
      simp only [List.mem_append] at hmem
      rcases hmem with (((hm | hm) | hm) | hm) | hm
      · rcases resolveKeys_tr_derives hres _ hm with h5 | h5 <;> simp at h5
      · exact h22 (warnKFloor_mem_sizeEvents_iff.mp hm)
      · exact warnKFloor_not_mem_dirEvents hm
      · simp at hm
      · exact hnd hm
    · intro c hc
      simp only [engineCalls_append, engineCalls_sizeEvents,
        engineCalls_dirEvents, engineCalls_cleanupEvents, hc0,
        engineCalls_identity, List.nil_append, List.append_nil] at hc
      exact hsz c hc

/-- C6 witness: the theorem applied to a k=10 job, which logs the warning
and coerces the engine size to 22. -/
theorem C6_witness :
    (resolveKeys envW argsC6 = (.ok ⟨1, some 1, none⟩, []) ∧
     argsC6.size < 22) ∧
    Event.warnKFloor ∈ (create_plot envW argsC6 none).trace :=
  ⟨⟨by decide, by decide⟩,
   (C6_k_size_floor envW argsC6 ⟨1, some 1, none⟩ [] (by decide)).1
     (by decide)⟩

theorem engineInvoked_starting_engine {c : EngineCall} :
    engineInvoked [Event.infoStartingPlot, Event.engine c] = true := rfl

/-- C2 counterexample: a job that reaches Dispatch (the engine is
invoked, and the job created the primary temp directory) but whose
engine call raises: the error propagates out of create_plot, the cleanup
section (log.info Summary, lines 196-208) never runs, and the created
temp directory is left behind — refuting the claim that teardown runs
regardless of the dispatch outcome. -/
theorem C2_counterexample :
    (create_plot envC2 argsW none).outcome = .error .plottingEngineFailure ∧
    engineInvoked (create_plot envC2 argsW none).trace = true ∧
    Event.mkdirCall "/tmp1" ∈ (create_plot envC2 argsW none).trace ∧
    Event.infoSummary ∉ (create_plot envC2 argsW none).trace ∧
    "/tmp1" ∈ (create_plot envC2 argsW none).fs := by
  refine ⟨by decide, by decide, by decide, by decide, by decide⟩

/-- C2 (amended): for every job that reaches the Dispatch step, the
Directory Manager teardown (the Summary section of lines 196-208) runs
whenever dispatch returns without raising — when the engine call returns
successfully (any phase, and an unrecognized phase dispatches nothing and
also returns), and on the skip path with a pre-existing output file —
but when the engine call raises, the PlottingEngineFailure propagates out
of create_plot immediately and the teardown does not run. -/
theorem C2_cleanup_not_on_engine_failure (env : Env) (args : Args)
    (keys : Resolved) (tr0 : List Event)
    (hres : resolveKeys env args = (.ok keys, tr0)) :
    (env.engineOk = true →
      (create_plot env args none).outcome = .ok () ∧
      Event.infoSummary ∈ (create_plot env args none).trace) ∧
    (args.filename ∈ env.fs →
      (create_plot env args none).outcome = .ok () ∧
      Event.infoSummary ∈ (create_plot env args none).trace) ∧
    (env.engineOk = false → args.filename ∉ env.fs →
      args.filename ≠ args.tmp_dir → args.filename ≠ defaultTmp2 args →
      args.filename ≠ env.cwd →
      (args.phase = 0 ∨ args.phase = 1 ∨ args.phase = 2) →
      (create_plot env args none).outcome = .error .plottingEngineFailure ∧
      engineInvoked (create_plot env args none).trace = true ∧
      Event.infoSummary ∉ (create_plot env args none).trace) := by
  obtain ⟨pid, pm, hid⟩ :=
    deriveIdentity_ok env keys env.keyGen (resolveKeys_ok_exactlyOne hres)
  refine ⟨?_, ?_, ?_⟩
  · intro heng
    rcases hd : dispatch env args (adjustedSize args.size) (defaultTmp2 args)
      args.filename (pathName args.filename) env.cwd (ovMemo env args pm)
      (ovPlotId env args pid) (fsAfterDirs env args (defaultTmp2 args))
      with ⟨o, evD⟩
    have ho : o = .ok () := by
      have h5 := dispatch_fst_ok env args (adjustedSize args.size)
        (defaultTmp2 args) args.filename (pathName args.filename) env.cwd
        (ovMemo env args pm) (ovPlotId env args pid)
        (fsAfterDirs env args (defaultTmp2 args)) heng
      rw [hd] at h5
      exact h5
    subst ho
    have hrun := create_plot_run_ok env args keys tr0 pid pm evD hres hid hd
    rw [hrun]
    exact ⟨rfl, List.mem_append.mpr (Or.inr infoSummary_mem_cleanupEvents)⟩
  · intro hex
    have hrun := create_plot_run env args keys tr0 pid pm hres hid
    rw [dispatch_skip (pathExists_fsAfterDirs_of_mem hex)] at hrun
    have hrun2 : create_plot env args none =
        ⟨.ok (),
         tr0 ++ sizeEvents env args true ++
           dirEvents env args (defaultTmp2 args) ++ [Event.identityDerive] ++
           [Event.infoAlreadyExists (pathName args.filename)] ++
           cleanupEvents env args (defaultTmp2 args) (tmpDirCreated env args)
             (tmp2DirCreated env args (defaultTmp2 args)) (pathName args.filename),
         cleanupFs env args (defaultTmp2 args) (tmpDirCreated env args)
           (tmp2DirCreated env args (defaultTmp2 args))
           (fsAfterDirs env args (defaultTmp2 args))⟩ := hrun
    rw [hrun2]
    exact ⟨rfl, List.mem_append.mpr (Or.inr infoSummary_mem_cleanupEvents)⟩
  · intro heng0 hnm hn1 hn2 hn3 hph
    have hnp := pathExists_fsAfterDirs_of_not hnm hn1 hn2 hn3
    have hdd : ∃ evD,
        dispatch env args (adjustedSize args.size) (defaultTmp2 args)
          args.filename (pathName args.filename) env.cwd (ovMemo env args pm)
          (ovPlotId env args pid) (fsAfterDirs env args (defaultTmp2 args)) =
          (.error .plottingEngineFailure, evD) ∧
        engineInvoked evD = true ∧ Event.infoSummary ∉ evD := by
      rcases hph with h | h | h
      · have hd := dispatch_phase0 env args (adjustedSize args.size)
          (defaultTmp2 args) args.filename (pathName args.filename) env.cwd
          (ovMemo env args pm) (ovPlotId env args pid)
          (fsAfterDirs env args (defaultTmp2 args)) hnp h
        rw [heng0, if_neg (by simp)] at hd
        exact ⟨_, hd, engineInvoked_starting_engine, by simp⟩
      · have hd := dispatch_phase1 env args (adjustedSize args.size)
          (defaultTmp2 args) args.filename (pathName args.filename) env.cwd
          (ovMemo env args pm) (ovPlotId env args pid)
          (fsAfterDirs env args (defaultTmp2 args)) hnp h
        rw [heng0, if_neg (by simp)] at hd
        exact ⟨_, hd, engineInvoked_starting_engine, by simp⟩
      · have hd := dispatch_phase2 env args (adjustedSize args.size)
          (defaultTmp2 args) args.filename (pathName args.filename) env.cwd
          (ovMemo env args pm) (ovPlotId env args pid)
          (fsAfterDirs env args (defaultTmp2 args)) hnp h
        rw [heng0, if_neg (by simp)] at hd
        exact ⟨_, hd, engineInvoked_starting_engine, by simp⟩
    obtain ⟨evD, hd, hEvD, hSum⟩ := hdd
    have hrun :=
      create_plot_run_error env args keys tr0 pid pm _ evD hres hid hd
    rw [hrun]
    refine ⟨rfl, ?_, ?_⟩
    · simp only [engineInvoked_append, hEvD, Bool.or_true]
    · intro hmem
      simp only [List.mem_append] at hmem
      rcases hmem with (((hm | hm) | hm) | hm) | hm
      · rcases resolveKeys_tr_derives hres _ hm with h5 | h5 <;> simp at h5
      · exact infoSummary_not_mem_sizeEvents hm
      · exact infoSummary_not_mem_dirEvents hm
      · simp at hm
      · exact hSum hm

/-- C2 witness: the amended theorem applied to a failing engine on a
phase-0 job — the error propagates and the Summary section never runs. -/
theorem C2_witness :
    (resolveKeys envC2 argsW = (.ok ⟨1, some 1, none⟩, []) ∧
     envC2.engineOk = false ∧ argsW.phase = 0) ∧
    ((create_plot envC2 argsW none).outcome = .error .plottingEngineFailure ∧
     engineInvoked (create_plot envC2 argsW none).trace = true ∧
     Event.infoSummary ∉ (create_plot envC2 argsW none).trace) :=
  ⟨⟨by decide, by decide, by decide⟩,
   (C2_cleanup_not_on_engine_failure envC2 argsW ⟨1, some 1, none⟩ []
     (by decide)).2.2 (by decide) (by decide) (by decide) (by decide)
     (by decide) (Or.inl (by decide))⟩

theorem create_plot_run_testkeys (env : Env) (args : Args) (keys : Resolved)
    (tr0 : List Event) (l : List PrivKey)
    (hres : resolveKeys env args = (.ok keys, tr0)) :
    create_plot env args (some l) =
      ⟨.error .nameError,
       tr0 ++ sizeEvents env args false ++ dirEvents env args (defaultTmp2 args),
       fsAfterDirs env args (defaultTmp2 args)⟩ := by
  unfold create_plot
  rw [hres]
  rfl

/-- C3 counterexample: two runs with the same k-size, the same plot ID
handed to the engine (same debug plot-id override), and the same
environment timestamp, yet the engine receives two different output file
names — the final file name is not derived from k-size, plot ID and
timestamp. -/
theorem C3_counterexample :
    argsC3a.size = argsC3b.size ∧
    (engineCalls (create_plot envW argsC3a none).trace).map callPlotId =
      (engineCalls (create_plot envW argsC3b none).trace).map callPlotId ∧
    (engineCalls (create_plot envW argsC3a none).trace).map callFilename =
      ["p1.plot"] ∧
    (engineCalls (create_plot envW argsC3b none).trace).map callFilename =
      ["p2.plot"] := by
  refine ⟨by decide, by decide, by decide, by decide⟩

/-- C3 (amended): the final output file name is the name component of the
caller-supplied filename argument — every engine call receives exactly
pathName args.filename — and the run is entirely independent of the
timestamp string of line 142, which is computed but never used; repeated
runs with the same filename argument therefore target the same file,
which is what enables the idempotent skip. -/
theorem C3_filename_from_argument (env : Env) (args : Args)
    (tpk : Option (List PrivKey)) (t : String) :
    (∀ c ∈ engineCalls (create_plot env args tpk).trace,
      callFilename c = pathName args.filename) ∧
    create_plot { env with now := t } args tpk = create_plot env args tpk := by
  constructor
  · intro c hc
    rcases hres : resolveKeys env args with ⟨r, tr⟩
    cases r with
    | error e =>
      have hcp : create_plot env args tpk = ⟨.error e, tr, env.fs⟩ := by
        unfold create_plot
        rw [hres]
      rw [hcp] at hc
      rw [engineCalls_of_derives (resolveKeys_tr_derives hres)] at hc
      cases hc
    | ok keys =>
      cases tpk with
      | some l =>
        rw [create_plot_run_testkeys env args keys tr l hres] at hc
        rw [engineCalls_append, engineCalls_append,
          engineCalls_of_derives (resolveKeys_tr_derives hres),
          engineCalls_sizeEvents, engineCalls_dirEvents] at hc
        cases hc
      | none =>
        obtain ⟨pid, pm, hid⟩ :=
          deriveIdentity_ok env keys env.keyGen (resolveKeys_ok_exactlyOne hres)
        rcases hd : dispatch env args (adjustedSize args.size)
          (defaultTmp2 args) args.filename (pathName args.filename) env.cwd
          (ovMemo env args pm) (ovPlotId env args pid)
          (fsAfterDirs env args (defaultTmp2 args)) with ⟨o, evD⟩
        have hfn : ∀ c ∈ engineCalls evD,
            callFilename c = pathName args.filename := by
          have h5 := dispatch_calls_filename env args (adjustedSize args.size)
            (defaultTmp2 args) args.filename (pathName args.filename) env.cwd
            (ovMemo env args pm) (ovPlotId env args pid)
            (fsAfterDirs env args (defaultTmp2 args))
          rw [hd] at h5
          exact h5
        cases o with
        | ok u =>
          cases u
          rw [create_plot_run_ok env args keys tr pid pm evD hres hid hd] at hc
          simp only [engineCalls_append, engineCalls_sizeEvents,
            engineCalls_dirEvents, engineCalls_cleanupEvents,
            engineCalls_identity,
            engineCalls_of_derives (resolveKeys_tr_derives hres),
            List.nil_append, List.append_nil] at hc
          exact hfn c hc
        | error e =>
          rw [create_plot_run_error env args keys tr pid pm e evD hres hid hd]
            at hc
          simp only [engineCalls_append, engineCalls_sizeEvents,
            engineCalls_dirEvents, engineCalls_cleanupEvents,
            engineCalls_identity,
            engineCalls_of_derives (resolveKeys_tr_derives hres),
            List.nil_append, List.append_nil] at hc
          exact hfn c hc
  · cases env
    rfl

/-- C3 witness: the amended theorem applied to a concrete job and a
different timestamp. -/
theorem C3_witness :
    (∀ c ∈ engineCalls (create_plot envW argsC3a none).trace,
      callFilename c = pathName argsC3a.filename) ∧
    create_plot { envW with now := "other" } argsC3a none =
      create_plot envW argsC3a none :=
  C3_filename_from_argument envW argsC3a none "other"

theorem mem_cleanupFs_of {env : Env} {args : Args} {t2 : FPath}
    {c1 c2 : Bool} {fs : List FPath} {p : FPath}
    (hp : p ∈ fs)
    (hT : c1 = false ∨ env.rmdirOk args.tmp_dir = false ∨ p ≠ args.tmp_dir)
    (h2 : c2 = false ∨ env.rmdirOk t2 = false ∨ p ≠ t2) :
    p ∈ cleanupFs env args t2 c1 c2 fs := by
  have hin : p ∈ (if c1 && env.rmdirOk args.tmp_dir
      then fs.erase args.tmp_dir else fs) := by
    split
    case isTrue hA =>
      rw [Bool.and_eq_true] at hA
      obtain ⟨hc1, hr1⟩ := hA
      have hne : p ≠ args.tmp_dir := by
        rcases hT with h | h | h
        · rw [hc1] at h; exact absurd h (by decide)
        · rw [hr1] at h; exact absurd h (by decide)
        · exact h
      exact (List.mem_erase_of_ne hne).mpr hp
    case isFalse hA => exact hp
  simp only [cleanupFs]
  split
  case isTrue hB =>
    rw [Bool.and_eq_true] at hB
    obtain ⟨hc2, hr2⟩ := hB
    have hne : p ≠ t2 := by
      rcases h2 with h | h | h
      · rw [hc2] at h; exact absurd h (by decide)
      · rw [hr2] at h; exact absurd h (by decide)
      · exact h
    exact (List.mem_erase_of_ne hne).mpr hin
  case isFalse hB => exact hin

theorem not_mem_cleanupFs_primary {env : Env} {args : Args} {t2 : FPath}
    {c2 : Bool} {fs : List FPath}
    (hfs : fs.Nodup) (hr : env.rmdirOk args.tmp_dir = true) :
    args.tmp_dir ∉ cleanupFs env args t2 true c2 fs := by
  intro hmem
  simp only [cleanupFs, Bool.true_and, hr, if_true] at hmem
  have hout : args.tmp_dir ∈ fs.erase args.tmp_dir := by
    rcases hb : (c2 && env.rmdirOk t2) with _ | _
    · rw [hb] at hmem
      simpa using hmem
    · rw [hb] at hmem
      simp only [if_true] at hmem
      exact List.mem_of_mem_erase hmem
  exact absurd ((hfs.mem_erase_iff).mp hout).1 (by simp)

theorem not_mem_cleanupFs_secondary {env : Env} {args : Args} {t2 : FPath}
    {c1 : Bool} {fs : List FPath}
    (hfs : fs.Nodup) (hr : env.rmdirOk t2 = true) :
    t2 ∉ cleanupFs env args t2 c1 true fs := by
  intro hmem
  simp only [cleanupFs, Bool.true_and, hr, if_true] at hmem
  have hnd1 : (if c1 && env.rmdirOk args.tmp_dir
      then fs.erase args.tmp_dir else fs).Nodup := by
    split
    · exact hfs.erase _
    · exact hfs
  exact absurd ((hnd1.mem_erase_iff).mp hmem).1 (by simp)

theorem warnTmp_mem_cleanupEvents {env : Env} {args : Args} {t2 : FPath}
    {c2 : Bool} {fn : String} (hr : env.rmdirOk args.tmp_dir = false) :
    Event.warnTmpNotRemoved args.tmp_dir ∈
      cleanupEvents env args t2 true c2 fn := by
  cases c2 <;> simp [cleanupEvents, hr]

theorem warnTmp2_mem_cleanupEvents {env : Env} {args : Args} {t2 : FPath}
    {c1 : Bool} {fn : String} (hr : env.rmdirOk t2 = false) :
    Event.warnTmp2NotRemoved t2 ∈ cleanupEvents env args t2 c1 true fn := by
  cases c1 <;> simp [cleanupEvents, hr]

/-- C7: with a job that completes its dispatch (engine cooperative), the
primary and secondary temp directories obey the ownership rule: a
directory that existed before the job is never removed; one the job
created is removed when rmdir succeeds (empty), and a failing rmdir only
logs a warning — the job still ends successfully, no error is raised. -/
theorem C7_directory_ownership (env : Env) (args : Args) (keys : Resolved)
    (tr0 : List Event)
    (hnd : env.fs.Nodup)
    (hres : resolveKeys env args = (.ok keys, tr0))
    (heng : env.engineOk = true) :
    (create_plot env args none).outcome = .ok () ∧
    (args.tmp_dir ∈ env.fs → args.tmp_dir ∈ (create_plot env args none).fs) ∧
    (args.tmp_dir ∉ env.fs →
      (env.rmdirOk args.tmp_dir = true →
        args.tmp_dir ∉ (create_plot env args none).fs) ∧
      (env.rmdirOk args.tmp_dir = false →
        Event.warnTmpNotRemoved args.tmp_dir ∈
          (create_plot env args none).trace)) ∧
    (defaultTmp2 args ∈ env.fs →
      defaultTmp2 args ∈ (create_plot env args none).fs) ∧
    (defaultTmp2 args ≠ args.tmp_dir → defaultTmp2 args ∉ env.fs →
      (env.rmdirOk (defaultTmp2 args) = true →
        defaultTmp2 args ∉ (create_plot env args none).fs) ∧
      (env.rmdirOk (defaultTmp2 args) = false →
        Event.warnTmp2NotRemoved (defaultTmp2 args) ∈
          (create_plot env args none).trace)) := by
  obtain ⟨pid, pm, hid⟩ :=
    deriveIdentity_ok env keys env.keyGen (resolveKeys_ok_exactlyOne hres)
  rcases hd : dispatch env args (adjustedSize args.size) (defaultTmp2 args)
    args.filename (pathName args.filename) env.cwd (ovMemo env args pm)
    (ovPlotId env args pid) (fsAfterDirs env args (defaultTmp2 args))
    with ⟨o, evD⟩
  have ho : o = .ok () := by
    have h5 := dispatch_fst_ok env args (adjustedSize args.size) (defaultTmp2 args)
        args.filename (pathName args.filename) env.cwd
        (ovMemo env args pm) (ovPlotId env args pid)
        (fsAfterDirs env args (defaultTmp2 args)) heng
    rw [hd] at h5
    exact h5
  subst ho
  have hrun := create_plot_run_ok env args keys tr0 pid pm evD hres hid hd
  rw [hrun]
  have hnd3 : (fsAfterDirs env args (defaultTmp2 args)).Nodup :=
    nodup_fsAfterDirs hnd
  refine ⟨rfl, ?_, ?_, ?_, ?_⟩
  · intro hT
    refine mem_cleanupFs_of
      (mem_fsAfterDirs.mpr (Or.inr (Or.inr (Or.inr hT))))
      (Or.inl (tmpDirCreated_false_iff.mpr hT)) ?_
    by_cases ht2 : defaultTmp2 args = args.tmp_dir
    · exact Or.inl (tmp2DirCreated_false_iff.mpr (Or.inr (ht2 ▸ hT)))
    · exact Or.inr (Or.inr fun h => ht2 h.symm)
  · intro hT
    have hc1 : tmpDirCreated env args = true := tmpDirCreated_true_iff.mpr hT
    rw [hc1]
    constructor
    · intro hr
      exact not_mem_cleanupFs_primary hnd3 hr
    · intro hr
      exact List.mem_append.mpr (Or.inr (warnTmp_mem_cleanupEvents hr))
  · intro h2
    refine mem_cleanupFs_of (mem_fsAfterDirs.mpr (Or.inr (Or.inl rfl))) ?_
      (Or.inl (tmp2DirCreated_false_iff.mpr (Or.inr h2)))
    by_cases hT : args.tmp_dir ∈ env.fs
    · exact Or.inl (tmpDirCreated_false_iff.mpr hT)
    · exact Or.inr (Or.inr fun he => hT (he ▸ h2))
  · intro hne h2
    have hc2 : tmp2DirCreated env args (defaultTmp2 args) = true :=
      tmp2DirCreated_true_iff.mpr ⟨hne, h2⟩
    rw [hc2]
    constructor
    · intro hr
      exact not_mem_cleanupFs_secondary hnd3 hr
    · intro hr
      exact List.mem_append.mpr (Or.inr (warnTmp2_mem_cleanupEvents hr))

/-- C7 witness: the theorem applied to an empty filesystem — the job
creates the primary temp directory and, rmdir succeeding, removes it. -/
theorem C7_witness :
    (envW.fs.Nodup ∧ envW.engineOk = true ∧ argsW.tmp_dir ∉ envW.fs ∧
     envW.rmdirOk argsW.tmp_dir = true) ∧
    argsW.tmp_dir ∉ (create_plot envW argsW none).fs :=
  ⟨⟨by decide, by decide, by decide, by decide⟩,
   ((C7_directory_ownership envW argsW ⟨1, some 1, none⟩ [] (by decide)
     (by decide) (by decide)).2.2.1 (by decide)).1 (by decide)⟩

end ChiaPlot
